import Mathlib

/-!
# Upload lifecycle orchestrator — shallow embedding

Embedding of the upload-session state machine implemented in
`src/frontend/src/components/molecules/FileUpload.tsx`: the component state
hooks, the `useEffect` status poller, `onDrop`, and `cancelUpload`.

Job identifiers (`upload_id`) are modelled as `Nat`, file handles by their
size in bytes, and the browser event loop by an explicit event trace: a
`tick` of the poll interval dispatches a status request for the current
`uploadId`; requests resolve later (`pollOk` / `pollFail`), in dispatch
order, running the `pollStatus` handler against whatever the component
state is at resolution time — exactly the semantics of `setInterval` plus
un-awaited `axios` promises in a single-threaded event loop.
-/

/-- A remote status payload, as returned by `GET /upload/{id}/status`:
`{ status, progress, filename, file_size, error? }`. -/
structure StatusPayload where
  status : String
  progress : Int
  filename : String
  file_size : Nat
  error : Option String
deriving DecidableEq, Repr

/-- JavaScript `a || b` on a possibly-absent string `a`: the fallback is
used when `a` is `undefined` or the (falsy) empty string. -/
def jsOrElse (a : Option String) (b : String) : String :=
  match a with
  | none => b
  | some s => if s = "" then b else s

/-- The component state of `FileUpload`: one field per `useState` hook that
participates in the upload lifecycle (`isUploading`, `uploadedFile`,
`uploadId`, `uploadProgress`, `uploadStatus`, `error`, `rejectedFile`,
`showSizeHelper`). Files are represented by their size in bytes. -/
structure Session where
  isUploading : Bool
  uploadedFile : Option Nat
  uploadId : Option Nat
  uploadProgress : Int
  uploadStatus : String
  error : Option String
  rejectedFile : Option Nat
  showSizeHelper : Bool
deriving DecidableEq, Repr

/-- The initial hook values: `false`, `null`, `null`, `0`, `"idle"`,
`null`, `null`, `false`. -/
def initialSession : Session :=
  { isUploading := false
    uploadedFile := none
    uploadId := none
    uploadProgress := 0
    uploadStatus := "idle"
    error := none
    rejectedFile := none
    showSizeHelper := false }

/-- The five values of the declared `uploadStatus` union type:
`"idle" | "uploading" | "completed" | "error" | "cancelled"`. -/
def declaredUploadStatuses : List String :=
  ["idle", "uploading", "completed", "error", "cancelled"]

/-- The guard of the polling `useEffect`: it returns early (leaving no
interval) unless an `uploadId` is set and `uploadStatus` is none of
`"completed"`, `"error"`, `"cancelled"`.  Because the effect re-runs on
every change of `uploadId` or `uploadStatus` (clearing the previous
interval first), an interval is live exactly when this guard holds of the
current state. -/
def pollingActive (s : Session) : Bool :=
  s.uploadId.isSome && !(s.uploadStatus = "completed")
    && !(s.uploadStatus = "error") && !(s.uploadStatus = "cancelled")

/-- An `onComplete` invocation: the handler calls
`onComplete({upload_id, filename, file_size, ...})` with the `uploadId`
captured by the effect closure that dispatched the request. -/
structure Completion where
  upload_id : Nat
  filename : String
  file_size : Nat
deriving DecidableEq, Repr

/-- The success path of `pollStatus`, run when the status request issued
for job `j` resolves with payload `p` while the component state is `s`:
`setUploadProgress(status.progress); setUploadStatus(status.status)`,
then the `"uploaded"` branch (`setUploadStatus("completed")`,
`setIsUploading(false)`, `onComplete({upload_id: uploadId, ...})`) or the
`"error"` branch (`setUploadStatus("error")`,
`setError(status.error || "Upload failed")`, `setIsUploading(false)`).
Returns the new state and the `onComplete` calls made. -/
def pollStatusOk (s : Session) (j : Nat) (p : StatusPayload) :
    Session × List Completion :=
  let s1 := { s with uploadProgress := p.progress, uploadStatus := p.status }
  if p.status = "uploaded" then
    ({ s1 with uploadStatus := "completed", isUploading := false },
     [⟨j, p.filename, p.file_size⟩])
  else if p.status = "error" then
    ({ s1 with uploadStatus := "error",
               error := some (jsOrElse p.error "Upload failed"),
               isUploading := false }, [])
  else (s1, [])

/-- The `catch` path of `pollStatus`, run when the status request itself
fails: `setUploadStatus("error")`,
`setError("Failed to check upload status")`, `setIsUploading(false)`. -/
def pollStatusErr (s : Session) : Session :=
  { s with uploadStatus := "error",
           error := some "Failed to check upload status",
           isUploading := false }

/-- A network request issued by the component: a status `GET`, the cancel
`DELETE`, or the initial upload `POST` (recorded with the file size). -/
inductive NetCall where
  | statusGet (j : Nat)
  | deleteUpload (j : Nat)
  | postUpload (size : Nat)
deriving DecidableEq, Repr

/-- `cancelUpload`: returns unchanged when `uploadId` is `null`; otherwise
awaits `DELETE /upload/{uploadId}` and, only if that succeeds
(`remoteOk`), runs `setUploadStatus("cancelled"); setIsUploading(false);
setUploadProgress(0)`.  On failure the `catch` block only logs and
toasts: no state is changed.  Returns the new state and the network
calls issued. -/
def cancelUpload (s : Session) (remoteOk : Bool) : Session × List NetCall :=
  match s.uploadId with
  | none => (s, [])
  | some j =>
    if remoteOk then
      ({ s with uploadStatus := "cancelled", isUploading := false,
                uploadProgress := 0 }, [NetCall.deleteUpload j])
    else (s, [NetCall.deleteUpload j])

/-- The observable steps of one `cancelUpload` call, in program order: the
remote `DELETE` is awaited first, and the local `cancelled` mutations run
after it, only on success; on failure only an error toast is shown. -/
inductive CancelEv where
  | remoteCancelIssued (j : Nat)
  | localCancelApplied
  | cancelFailureNotified
deriving DecidableEq, Repr

/-- Event order of `cancelUpload` as written: nothing when no `uploadId`;
otherwise the remote request precedes any local mutation. -/
def cancelUploadTrace (s : Session) (remoteOk : Bool) : List CancelEv :=
  match s.uploadId with
  | none => []
  | some j =>
    if remoteOk then
      [CancelEv.remoteCancelIssued j, CancelEv.localCancelApplied]
    else
      [CancelEv.remoteCancelIssued j, CancelEv.cancelFailureNotified]

/-- The 1 GB size ceiling of `onDrop`:
`const maxSize = 1024 * 1024 * 1024`. -/
def maxSize : Nat := 1024 * 1024 * 1024

/-- `(n / (1024*1024)).toFixed(2)` — megabytes with two decimals, rounded
to nearest (half away from zero), rendered as in the source message. -/
def toFixed2MB (n : Nat) : String :=
  let hundredths := (n * 100 + 524288) / 1048576
  let frac := hundredths % 100
  toString (hundredths / 100) ++ "." ++
    (if frac < 10 then "0" ++ toString frac else toString frac)

/-- The rejection message of the size check:
``File too large: ${fileSizeMB}MB. Maximum size is ${maxSizeMB}MB.``
with `fileSizeMB = (file.size/(1024*1024)).toFixed(2)` and
`maxSizeMB = (maxSize/(1024*1024)).toFixed(0) = "1024"`. -/
def fileTooLargeMsg (size : Nat) : String :=
  "File too large: " ++ toFixed2MB size ++ "MB. Maximum size is " ++
    toString (maxSize / (1024 * 1024)) ++ "MB."

/-- The size-check branch of `onDrop`, taken when `file.size > maxSize`:
`setUploadStatus("error"); setError(msg); setRejectedFile(file);
setShowSizeHelper(true)`, then `return` — no network call, no `uploadId`
change. -/
def rejectOversize (s : Session) (size : Nat) : Session :=
  { s with uploadStatus := "error",
           error := some (fileTooLargeMsg size),
           rejectedFile := some size,
           showSizeHelper := true }

/-- The part of `onDrop` run for an accepted file: when an upload is
already live (`uploadId && uploadStatus === "uploading"`) it first awaits
`cancelUpload()`; then the resets
(`setUploadedFile(file); setIsUploading(true);
setUploadStatus("uploading"); setUploadProgress(0); setError(null)`);
then `POST /upload` which, on success, yields
`setUploadId(response.data.upload_id)`.  `newId` is the `upload_id` the
service returns, `cancelOk` whether the inner `DELETE` succeeds. -/
def startTransfer (s : Session) (size newId : Nat) (cancelOk : Bool) :
    Session × List NetCall :=
  let pre :=
    if s.uploadId.isSome && s.uploadStatus = "uploading" then
      cancelUpload s cancelOk
    else (s, [])
  ({ pre.1 with uploadedFile := some size, isUploading := true,
                uploadStatus := "uploading", uploadProgress := 0,
                error := none, uploadId := some newId },
   pre.2 ++ [NetCall.postUpload size])

/-- `onDrop` with one accepted file of the given size, in the run where
the upload `POST` succeeds and returns `newId`: the size check first,
then `startTransfer`. -/
def onDrop (s : Session) (size newId : Nat) (cancelOk : Bool) :
    Session × List NetCall :=
  if size > maxSize then (rejectOversize s size, [])
  else startTransfer s size newId cancelOk

/-- The whole component at run time: the hook state, the queue of
dispatched-but-unresolved status requests (each tagged with the `jobId`
it was issued for — the `uploadId` in the effect closure that dispatched
it), the `onComplete` calls made so far, and the log of network requests
issued, in order. -/
structure Runtime where
  session : Session
  inflight : List Nat
  completions : List Completion
  netLog : List NetCall
deriving DecidableEq, Repr

/-- The runtime at mount: initial hook state, nothing in flight. -/
def initialRuntime : Runtime :=
  { session := initialSession, inflight := [], completions := [], netLog := [] }

/-- Events of the browser event loop relevant to the orchestrator:
a poll-interval tick (dispatching a status request), the oldest
in-flight status request resolving with a payload or failing, a file
drop whose upload `POST` succeeds, and a click of the cancel button. -/
inductive Ev where
  | tick
  | pollOk (p : StatusPayload)
  | pollFail
  | drop (size newId : Nat) (cancelOk : Bool)
  | cancel (remoteOk : Bool)
deriving DecidableEq, Repr

/-- One event-loop step.  `tick` fires only while the effect guard holds
(otherwise the interval has been cleared) and dispatches
`GET /upload/{uploadId}/status` for the current `uploadId`; `pollOk` /
`pollFail` resolve the oldest in-flight request, running the
`pollStatus` handler against the current state — nothing in the handler
consults the `jobId` the request was issued for, except the `"uploaded"`
branch, which reports it to `onComplete`. -/
def step (r : Runtime) : Ev → Runtime
  | Ev.tick =>
    if pollingActive r.session then
      match r.session.uploadId with
      | some j =>
        { r with inflight := r.inflight ++ [j],
                 netLog := r.netLog ++ [NetCall.statusGet j] }
      | none => r
    else r
  | Ev.pollOk p =>
    match r.inflight with
    | [] => r
    | j :: rest =>
      let (s, cs) := pollStatusOk r.session j p
      { r with session := s, inflight := rest,
               completions := r.completions ++ cs }
  | Ev.pollFail =>
    match r.inflight with
    | [] => r
    | _ :: rest =>
      { r with session := pollStatusErr r.session, inflight := rest }
  | Ev.drop size newId cancelOk =>
    let (s, calls) := onDrop r.session size newId cancelOk
    { r with session := s, netLog := r.netLog ++ calls }
  | Ev.cancel remoteOk =>
    let (s, calls) := cancelUpload r.session remoteOk
    { r with session := s, netLog := r.netLog ++ calls }

/-- Run a list of events from a runtime state. -/
def runTrace (r : Runtime) : List Ev → Runtime
  | [] => r
  | e :: es => runTrace (step r e) es

/-- A non-terminal status payload, as in §6 of the remote contract
(`status ∈ {"uploading","uploaded","error","pending"}`). -/
def pendingPayload (progress : Int) : StatusPayload :=
  { status := "pending", progress := progress, filename := "data.csv",
    file_size := 100, error := none }

/-- A terminal `"uploaded"` payload. -/
def uploadedPayload : StatusPayload :=
  { status := "uploaded", progress := 100, filename := "data.csv",
    file_size := 100, error := none }

/-- Runtime after one successful 100-byte upload start (`upload_id` 1):
`uploadStatus = "uploading"`, `uploadId = some 1`. -/
def runningRt : Runtime := runTrace initialRuntime [Ev.drop 100 1 true]

/-- `runningRt` after one interval tick: one status request for job 1 is
in flight. -/
def polledRt : Runtime := runTrace initialRuntime [Ev.drop 100 1 true, Ev.tick]

example : runningRt.session.uploadStatus = "uploading" := by decide
example : runningRt.session.uploadId = some 1 := by decide
example : polledRt.inflight = [1] := by decide

/-- **C4**: a file whose size exceeds the 1 GB ceiling is rejected before
any network activity: the session goes to `"error"` (the `Failed`
rendering state) with the size-carrying `FileTooLarge` message, the
rejected file is recorded for the size helper, no network call is
issued, and `uploadId` is not assigned. -/
theorem oversize_drop_rejected (r : Runtime) (size newId : Nat) (cOk : Bool)
    (h : size > maxSize) :
    (step r (Ev.drop size newId cOk)).session.uploadStatus = "error" ∧
    (step r (Ev.drop size newId cOk)).session.error
      = some (fileTooLargeMsg size) ∧
    (step r (Ev.drop size newId cOk)).session.rejectedFile = some size ∧
    (step r (Ev.drop size newId cOk)).session.showSizeHelper = true ∧
    (step r (Ev.drop size newId cOk)).session.uploadId = r.session.uploadId ∧
    (step r (Ev.drop size newId cOk)).netLog = r.netLog := by
  simp [step, onDrop, rejectOversize, h]

/-- **C4 witness** (Scenario B): a 2 GiB file under the 1 GiB limit is
rejected with the message carrying both sizes, no network call, no
`jobId`. -/
theorem oversize_drop_rejected_witness :
    (2 * 1024 ^ 3 > maxSize) ∧
    ((step initialRuntime (Ev.drop (2 * 1024 ^ 3) 7 true)).session.uploadStatus
        = "error" ∧
      (step initialRuntime (Ev.drop (2 * 1024 ^ 3) 7 true)).session.error
        = some (fileTooLargeMsg (2 * 1024 ^ 3)) ∧
      (step initialRuntime (Ev.drop (2 * 1024 ^ 3) 7 true)).session.rejectedFile
        = some (2 * 1024 ^ 3) ∧
      (step initialRuntime (Ev.drop (2 * 1024 ^ 3) 7 true)).session.showSizeHelper
        = true ∧
      (step initialRuntime (Ev.drop (2 * 1024 ^ 3) 7 true)).session.uploadId
        = initialRuntime.session.uploadId ∧
      (step initialRuntime (Ev.drop (2 * 1024 ^ 3) 7 true)).netLog
        = initialRuntime.netLog) ∧
    fileTooLargeMsg (2 * 1024 ^ 3)
      = "File too large: 2048.00MB. Maximum size is 1024MB." :=
  ⟨by decide, oversize_drop_rejected initialRuntime (2 * 1024 ^ 3) 7 true (by decide),
   by decide⟩

/-- **C7**: when a status request itself fails, the `catch` block moves
the session to `"error"` with the `StatusCheckFailed` message
`"Failed to check upload status"`, stops the spinner, and — since the
effect guard now fails — the interval is cleared: a further tick
dispatches nothing (no automatic retry). -/
theorem poll_failure_fails_fast (r : Runtime) (j : Nat) (rest : List Nat)
    (h : r.inflight = j :: rest) :
    (step r Ev.pollFail).session.uploadStatus = "error" ∧
    (step r Ev.pollFail).session.error
      = some "Failed to check upload status" ∧
    (step r Ev.pollFail).session.isUploading = false ∧
    pollingActive (step r Ev.pollFail).session = false ∧
    step (step r Ev.pollFail) Ev.tick = step r Ev.pollFail := by
  have hstep : step r Ev.pollFail =
      { session := pollStatusErr r.session, inflight := rest,
        completions := r.completions, netLog := r.netLog } := by
    simp [step, h]
  rw [hstep]
  refine ⟨by simp [pollStatusErr], by simp [pollStatusErr],
          by simp [pollStatusErr], by simp [pollingActive, pollStatusErr], ?_⟩
  simp [step, pollingActive, pollStatusErr]

/-- **C7 witness**: from a concrete state with one request in flight, a
failed status check ends polling with the `StatusCheckFailed` error. -/
theorem poll_failure_fails_fast_witness :
    polledRt.inflight = 1 :: [] ∧
    ((step polledRt Ev.pollFail).session.uploadStatus = "error" ∧
      (step polledRt Ev.pollFail).session.error
        = some "Failed to check upload status" ∧
      (step polledRt Ev.pollFail).session.isUploading = false ∧
      pollingActive (step polledRt Ev.pollFail).session = false ∧
      step (step polledRt Ev.pollFail) Ev.tick = step polledRt Ev.pollFail) :=
  ⟨by decide, poll_failure_fails_fast polledRt 1 [] (by decide)⟩

/-- **C9**: a poll response with remote status `"error"` moves the session
to `"error"` with message `status.error || "Upload failed"` (the remote
message when it is a non-empty string, the generic fallback otherwise),
stops the spinner, makes no `onComplete` call, and — the effect guard now
failing — releases the poll interval. -/
theorem remote_error_maps_to_failed (s : Session) (j : Nat)
    (p : StatusPayload) (hs : p.status = "error") :
    (pollStatusOk s j p).1.uploadStatus = "error" ∧
    (pollStatusOk s j p).1.error = some (jsOrElse p.error "Upload failed") ∧
    (pollStatusOk s j p).1.isUploading = false ∧
    (pollStatusOk s j p).2 = [] ∧
    pollingActive (pollStatusOk s j p).1 = false := by
  simp [pollStatusOk, hs, pollingActive]

/-- **C9 witness** (Scenario D): `{status:"error", error:"corrupt file"}`
yields local `"error"` with message `"corrupt file"`, and an absent
remote message yields the fallback `"Upload failed"`. -/
theorem remote_error_maps_to_failed_witness :
    ((pollStatusOk runningRt.session 1
        ⟨"error", 0, "data.csv", 100, some "corrupt file"⟩).1.uploadStatus
        = "error" ∧
      (pollStatusOk runningRt.session 1
        ⟨"error", 0, "data.csv", 100, some "corrupt file"⟩).1.error
        = some (jsOrElse (some "corrupt file") "Upload failed") ∧
      (pollStatusOk runningRt.session 1
        ⟨"error", 0, "data.csv", 100, some "corrupt file"⟩).1.isUploading
        = false ∧
      (pollStatusOk runningRt.session 1
        ⟨"error", 0, "data.csv", 100, some "corrupt file"⟩).2 = [] ∧
      pollingActive (pollStatusOk runningRt.session 1
        ⟨"error", 0, "data.csv", 100, some "corrupt file"⟩).1 = false) ∧
    jsOrElse (some "corrupt file") "Upload failed" = "corrupt file" ∧
    jsOrElse none "Upload failed" = "Upload failed" :=
  ⟨remote_error_maps_to_failed runningRt.session 1
      ⟨"error", 0, "data.csv", 100, some "corrupt file"⟩ rfl,
   by decide, by decide⟩

/-- **C10**: a poll response whose status is neither `"uploaded"` nor
`"error"` has its raw status string written into `uploadStatus`
(`setUploadStatus(status.status)` with no further branch taken), so the
field can hold values outside the declared five-value union type; the
progress is copied, no error is set, and no completion fires. -/
theorem raw_status_assigned (s : Session) (j : Nat) (p : StatusPayload)
    (h1 : ¬ p.status = "uploaded") (h2 : ¬ p.status = "error") :
    (pollStatusOk s j p).1.uploadStatus = p.status ∧
    (pollStatusOk s j p).1.uploadProgress = p.progress ∧
    (pollStatusOk s j p).1.error = s.error ∧
    (pollStatusOk s j p).1.isUploading = s.isUploading ∧
    (pollStatusOk s j p).2 = [] := by
  simp [pollStatusOk, h1, h2]

/-- **C10 witness**: a `"pending"` payload leaves `uploadStatus =
"pending"`, a value not among the five declared ones. -/
theorem raw_status_assigned_witness :
    ((pollStatusOk runningRt.session 1 (pendingPayload 42)).1.uploadStatus
        = (pendingPayload 42).status ∧
      (pollStatusOk runningRt.session 1 (pendingPayload 42)).1.uploadProgress
        = (pendingPayload 42).progress ∧
      (pollStatusOk runningRt.session 1 (pendingPayload 42)).1.error
        = runningRt.session.error ∧
      (pollStatusOk runningRt.session 1 (pendingPayload 42)).1.isUploading
        = runningRt.session.isUploading ∧
      (pollStatusOk runningRt.session 1 (pendingPayload 42)).2 = []) ∧
    (pendingPayload 42).status = "pending" ∧
    "pending" ∉ declaredUploadStatuses :=
  ⟨raw_status_assigned runningRt.session 1 (pendingPayload 42)
      (by decide) (by decide),
   by decide, by decide⟩

/-- **C6 counterexample**: with the remote reporting 50 then 30, the
session's progress goes 50 → 30 while polling stays active — the handler
enforces no monotonicity, refuting the non-decreasing invariant. -/
theorem progress_monotonic_cex :
    (runTrace initialRuntime [Ev.drop 100 1 true, Ev.tick,
        Ev.pollOk (pendingPayload 50)]).session.uploadProgress = 50 ∧
    pollingActive (runTrace initialRuntime [Ev.drop 100 1 true, Ev.tick,
        Ev.pollOk (pendingPayload 50)]).session = true ∧
    (runTrace initialRuntime [Ev.drop 100 1 true, Ev.tick,
        Ev.pollOk (pendingPayload 50), Ev.tick,
        Ev.pollOk (pendingPayload 30)]).session.uploadProgress = 30 ∧
    pollingActive (runTrace initialRuntime [Ev.drop 100 1 true, Ev.tick,
        Ev.pollOk (pendingPayload 50), Ev.tick,
        Ev.pollOk (pendingPayload 30)]).session = true ∧
    (30 : Int) < 50 := by
  decide

/-- **C6 amended**: `uploadProgress` is assigned directly from each poll
payload (`setUploadProgress(status.progress)`, unconditionally, on every
branch of the handler); successive values are non-decreasing only when
the remote's reported values are — the client enforces nothing. -/
theorem progress_assigned_from_payload (s : Session) (j : Nat)
    (p : StatusPayload) :
    (pollStatusOk s j p).1.uploadProgress = p.progress := by
  unfold pollStatusOk
  split
  · rfl
  · split <;> rfl

/-- **C1 counterexample**: start job 1, one status request goes out,
cancel (success), start job 2 — the request issued for job 1 is still in
flight and the session's current id is 2.  Its resolution is applied
anyway: a `"pending"` payload overwrites the new job's progress and
status, and an `"uploaded"` payload drives the session to `"completed"`
and fires `onComplete` with the superseded id 1. -/
theorem stale_poll_discarded_cex :
    (runTrace initialRuntime [Ev.drop 100 1 true, Ev.tick, Ev.cancel true,
        Ev.drop 200 2 true]).session.uploadId = some 2 ∧
    (runTrace initialRuntime [Ev.drop 100 1 true, Ev.tick, Ev.cancel true,
        Ev.drop 200 2 true]).inflight = [1] ∧
    (runTrace initialRuntime [Ev.drop 100 1 true, Ev.tick, Ev.cancel true,
        Ev.drop 200 2 true]).session.uploadProgress = 0 ∧
    (runTrace initialRuntime [Ev.drop 100 1 true, Ev.tick, Ev.cancel true,
        Ev.drop 200 2 true]).session.uploadStatus = "uploading" ∧
    (runTrace initialRuntime [Ev.drop 100 1 true, Ev.tick, Ev.cancel true,
        Ev.drop 200 2 true, Ev.pollOk (pendingPayload 77)]).session.uploadProgress
      = 77 ∧
    (runTrace initialRuntime [Ev.drop 100 1 true, Ev.tick, Ev.cancel true,
        Ev.drop 200 2 true, Ev.pollOk (pendingPayload 77)]).session.uploadStatus
      = "pending" ∧
    (runTrace initialRuntime [Ev.drop 100 1 true, Ev.tick, Ev.cancel true,
        Ev.drop 200 2 true, Ev.pollOk uploadedPayload]).session.uploadStatus
      = "completed" ∧
    (runTrace initialRuntime [Ev.drop 100 1 true, Ev.tick, Ev.cancel true,
        Ev.drop 200 2 true, Ev.pollOk uploadedPayload]).completions
      = [⟨1, "data.csv", 100⟩] := by
  decide

/-- **C1 amended**: the effect cleanup only prevents future interval
ticks for a superseded id; an already-dispatched poll response is never
discarded — resolving it always runs the handler on the current state,
and the handler's state mutation is identical whatever id the request
was issued for (`pollStatus` never compares its `jobId` against the
session's current one). -/
theorem stale_poll_applied (r : Runtime) (j j' : Nat) (rest : List Nat)
    (p : StatusPayload) (h : r.inflight = j :: rest) :
    (step r (Ev.pollOk p)).session = (pollStatusOk r.session j p).1 ∧
    (pollStatusOk r.session j p).1 = (pollStatusOk r.session j' p).1 := by
  constructor
  · simp [step, h]
  · unfold pollStatusOk
    split
    · rfl
    · split <;> rfl

/-- **C1 amended witness**: with the stale request for job 1 in flight
and current id 2, its resolution runs the handler on the current state,
identically to a request issued for any other id. -/
theorem stale_poll_applied_witness :
    (runTrace initialRuntime [Ev.drop 100 1 true, Ev.tick, Ev.cancel true,
        Ev.drop 200 2 true]).session.uploadId = some 2 ∧
    ((step (runTrace initialRuntime [Ev.drop 100 1 true, Ev.tick,
          Ev.cancel true, Ev.drop 200 2 true])
          (Ev.pollOk (pendingPayload 77))).session
        = (pollStatusOk (runTrace initialRuntime [Ev.drop 100 1 true,
            Ev.tick, Ev.cancel true, Ev.drop 200 2 true]).session 1
            (pendingPayload 77)).1 ∧
      (pollStatusOk (runTrace initialRuntime [Ev.drop 100 1 true,
          Ev.tick, Ev.cancel true, Ev.drop 200 2 true]).session 1
          (pendingPayload 77)).1
        = (pollStatusOk (runTrace initialRuntime [Ev.drop 100 1 true,
            Ev.tick, Ev.cancel true, Ev.drop 200 2 true]).session 99
            (pendingPayload 77)).1) :=
  ⟨by decide,
   stale_poll_applied (runTrace initialRuntime [Ev.drop 100 1 true,
      Ev.tick, Ev.cancel true, Ev.drop 200 2 true]) 1 99 []
      (pendingPayload 77) (by decide)⟩

/-- **C3 counterexample**: two interval ticks with no resolution in
between leave two status requests outstanding for job 1 — `setInterval`
dispatches on every tick without awaiting the previous request. -/
theorem single_outstanding_poll_cex :
    (runTrace initialRuntime
        [Ev.drop 100 1 true, Ev.tick, Ev.tick]).inflight = [1, 1] ∧
    (runTrace initialRuntime
        [Ev.drop 100 1 true, Ev.tick, Ev.tick]).inflight.length = 2 ∧
    pollingActive (runTrace initialRuntime
        [Ev.drop 100 1 true, Ev.tick, Ev.tick]).session = true := by
  decide

/-- **C3 amended**: while the effect guard holds, every tick dispatches a
fresh status request for the current `uploadId`, appending to whatever is
already outstanding — nothing waits for the previous request. -/
theorem tick_dispatches_unconditionally (r : Runtime) (j : Nat)
    (h1 : r.session.uploadId = some j)
    (h2 : pollingActive r.session = true) :
    (step r Ev.tick).inflight = r.inflight ++ [j] ∧
    (step r Ev.tick).netLog = r.netLog ++ [NetCall.statusGet j] := by
  simp [step, h1, h2]

/-- **C3 amended witness**: a tick with a request already in flight
leaves two outstanding. -/
theorem tick_dispatches_unconditionally_witness :
    polledRt.session.uploadId = some 1 ∧
    pollingActive polledRt.session = true ∧
    ((step polledRt Ev.tick).inflight = polledRt.inflight ++ [1] ∧
      (step polledRt Ev.tick).netLog
        = polledRt.netLog ++ [NetCall.statusGet 1]) :=
  ⟨by decide, by decide,
   tick_dispatches_unconditionally polledRt 1 (by decide) (by decide)⟩

/-- **C2 counterexample**: on a session uploading job 1, `cancelUpload`
issues the remote `DELETE` before any local mutation, and when that
request fails the state is returned untouched — still `"uploading"`,
never `"cancelled"`, with the effect guard still arming the poll
interval. -/
theorem cancel_local_first_cex :
    cancelUploadTrace runningRt.session true
      = [CancelEv.remoteCancelIssued 1, CancelEv.localCancelApplied] ∧
    (cancelUpload runningRt.session false).1 = runningRt.session ∧
    (cancelUpload runningRt.session false).1.uploadStatus = "uploading" ∧
    ¬ (cancelUpload runningRt.session false).1.uploadStatus = "cancelled" ∧
    pollingActive (cancelUpload runningRt.session false).1 = true := by
  decide

/-- **C2 amended**: `cancelUpload` awaits the remote `DELETE` first and
applies the local `cancelled` mutations (which also make the effect clear
the poll timer) only when it succeeds; a remote failure is only notified:
the local state is unchanged — it never becomes `Cancelled` — and
polling continues. -/
theorem cancelUpload_remote_first (s : Session) (j : Nat)
    (h : s.uploadId = some j) :
    cancelUploadTrace s true
      = [CancelEv.remoteCancelIssued j, CancelEv.localCancelApplied] ∧
    (cancelUpload s true).1.uploadStatus = "cancelled" ∧
    (cancelUpload s true).1.isUploading = false ∧
    (cancelUpload s true).1.uploadProgress = 0 ∧
    pollingActive (cancelUpload s true).1 = false ∧
    (cancelUpload s false).1 = s ∧
    (cancelUpload s false).2 = [NetCall.deleteUpload j] := by
  simp [cancelUploadTrace, cancelUpload, h, pollingActive]

/-- **C2 amended witness**: concrete run of both branches on the session
uploading job 1. -/
theorem cancelUpload_remote_first_witness :
    runningRt.session.uploadId = some 1 ∧
    (cancelUploadTrace runningRt.session true
        = [CancelEv.remoteCancelIssued 1, CancelEv.localCancelApplied] ∧
      (cancelUpload runningRt.session true).1.uploadStatus = "cancelled" ∧
      (cancelUpload runningRt.session true).1.isUploading = false ∧
      (cancelUpload runningRt.session true).1.uploadProgress = 0 ∧
      pollingActive (cancelUpload runningRt.session true).1 = false ∧
      (cancelUpload runningRt.session false).1 = runningRt.session ∧
      (cancelUpload runningRt.session false).2
        = [NetCall.deleteUpload 1]) :=
  ⟨by decide, cancelUpload_remote_first runningRt.session 1 (by decide)⟩

/-- **C8 counterexample**: after a successful cancellation of job 1 the
session's `uploadId` is still `some 1` — `cancelUpload` never calls
`setUploadId(null)`, so the identifier is not cleared. -/
theorem cancel_clears_jobId_cex :
    (runTrace initialRuntime [Ev.drop 100 1 true,
        Ev.cancel true]).session.uploadStatus = "cancelled" ∧
    (runTrace initialRuntime [Ev.drop 100 1 true,
        Ev.cancel true]).session.uploadId = some 1 ∧
    ¬ (runTrace initialRuntime [Ev.drop 100 1 true,
        Ev.cancel true]).session.uploadId = none := by
  decide

/-- **C8 amended**: `cancelUpload` leaves `uploadId` exactly as it was
(only the UI reset buttons set it to `null`); a subsequent accepted
start overwrites it with the `upload_id` the service newly returns, so
the cancelled identifier is not reused by the client. -/
theorem cancel_keeps_jobId (s : Session) (ok cOk : Bool)
    (size newId : Nat) (hsize : ¬ size > maxSize) :
    ((cancelUpload s ok).1).uploadId = s.uploadId ∧
    (onDrop (cancelUpload s ok).1 size newId cOk).1.uploadId
      = some newId := by
  have h1 : ((cancelUpload s ok).1).uploadId = s.uploadId := by
    unfold cancelUpload
    rcases h : s.uploadId with _ | j
    · simp [h]
    · cases ok <;> simp [h]
  refine ⟨h1, ?_⟩
  simp [onDrop, hsize, startTransfer]

/-- **C8 amended witness**: cancel of job 1 keeps `uploadId = some 1`;
a following start stores the service's new identifier 2. -/
theorem cancel_keeps_jobId_witness :
    ¬ (100 : Nat) > maxSize ∧
    (((cancelUpload runningRt.session true).1).uploadId
        = runningRt.session.uploadId ∧
      (onDrop (cancelUpload runningRt.session true).1 100 2
        true).1.uploadId = some 2) :=
  ⟨by decide, cancel_keeps_jobId runningRt.session true true 100 2 (by decide)⟩

/-- **C5 counterexample**: job 1 is live and actively polled with status
`"pending"` (a value the poll handler itself stores); dropping a new
file then issues only the upload `POST` — no `DELETE` for job 1 appears
anywhere in the network log, because `onDrop` cancels only when
`uploadStatus === "uploading"` exactly.  Two remote jobs are now live. -/
theorem replace_cancels_first_cex :
    (runTrace initialRuntime [Ev.drop 100 1 true, Ev.tick,
        Ev.pollOk (pendingPayload 20)]).session.uploadId = some 1 ∧
    (runTrace initialRuntime [Ev.drop 100 1 true, Ev.tick,
        Ev.pollOk (pendingPayload 20)]).session.uploadStatus = "pending" ∧
    pollingActive (runTrace initialRuntime [Ev.drop 100 1 true, Ev.tick,
        Ev.pollOk (pendingPayload 20)]).session = true ∧
    (runTrace initialRuntime [Ev.drop 100 1 true, Ev.tick,
        Ev.pollOk (pendingPayload 20), Ev.drop 200 2 true]).netLog
      = [NetCall.postUpload 100, NetCall.statusGet 1,
         NetCall.postUpload 200] ∧
    NetCall.deleteUpload 1 ∉
      (runTrace initialRuntime [Ev.drop 100 1 true, Ev.tick,
        Ev.pollOk (pendingPayload 20), Ev.drop 200 2 true]).netLog ∧
    (runTrace initialRuntime [Ev.drop 100 1 true, Ev.tick,
        Ev.pollOk (pendingPayload 20), Ev.drop 200 2 true]).session.uploadId
      = some 2 := by
  decide

/-- **C5 amended**: before starting a new transfer, `onDrop` cancels the
existing job only when the session holds a `jobId` AND `uploadStatus` is
exactly `"uploading"`; for any other non-terminal status stored by the
poll handler (e.g. `"pending"`) the new `POST` is issued with no
cancellation, and in both cases the session then tracks the new
`upload_id`. -/
theorem replace_cancels_only_uploading (s : Session) (size newId j : Nat)
    (cOk : Bool) (hsize : ¬ size > maxSize) (hid : s.uploadId = some j) :
    (s.uploadStatus = "uploading" →
      (onDrop s size newId cOk).2
        = [NetCall.deleteUpload j, NetCall.postUpload size]) ∧
    (¬ s.uploadStatus = "uploading" →
      (onDrop s size newId cOk).2 = [NetCall.postUpload size]) ∧
    (onDrop s size newId cOk).1.uploadId = some newId := by
  refine ⟨?_, ?_, ?_⟩
  · intro hst
    simp [onDrop, hsize, startTransfer, hid, hst, cancelUpload]
    cases cOk <;> simp
  · intro hst
    simp [onDrop, hsize, startTransfer, hst]
  · simp [onDrop, hsize, startTransfer]

/-- **C5 amended witness**: on the `"pending"` session polled for job 1,
a new 200-byte drop accepted as job 2 issues only the `POST`. -/
theorem replace_cancels_only_uploading_witness :
    ¬ (200 : Nat) > maxSize ∧
    (runTrace initialRuntime [Ev.drop 100 1 true, Ev.tick,
        Ev.pollOk (pendingPayload 20)]).session.uploadId = some 1 ∧
    (((runTrace initialRuntime [Ev.drop 100 1 true, Ev.tick,
          Ev.pollOk (pendingPayload 20)]).session.uploadStatus = "uploading" →
        (onDrop (runTrace initialRuntime [Ev.drop 100 1 true, Ev.tick,
          Ev.pollOk (pendingPayload 20)]).session 200 2 true).2
          = [NetCall.deleteUpload 1, NetCall.postUpload 200]) ∧
      (¬ (runTrace initialRuntime [Ev.drop 100 1 true, Ev.tick,
          Ev.pollOk (pendingPayload 20)]).session.uploadStatus = "uploading" →
        (onDrop (runTrace initialRuntime [Ev.drop 100 1 true, Ev.tick,
          Ev.pollOk (pendingPayload 20)]).session 200 2 true).2
          = [NetCall.postUpload 200]) ∧
      (onDrop (runTrace initialRuntime [Ev.drop 100 1 true, Ev.tick,
        Ev.pollOk (pendingPayload 20)]).session 200 2 true).1.uploadId
        = some 2) :=
  ⟨by decide, by decide,
   replace_cancels_only_uploading
      (runTrace initialRuntime [Ev.drop 100 1 true, Ev.tick,
        Ev.pollOk (pendingPayload 20)]).session 200 2 1 true
      (by decide) (by decide)⟩
